import Mathlib

/-!
# Verification of the lfz build orchestrator core

Shallow embedding of the concurrent build-execution engine of the `lfz`
firmware build tool, together with proofs of the specified properties.

The embedding follows the Rust sources:
* `src/build/orchestrator.rs` — semaphore, build-task result construction,
  sequential/parallel scheduling;
* `src/build/artifacts.rs` — artifact resolution and relocation;
* `src/build/target.rs` — build targets, west arguments, firmware candidates;
* `src/workspace/hash_tracker.rs` — content-hash cache-invalidation tracker;
* `src/cli/build.rs` — CLI-level resolution of job count and cache mode.
-/

set_option maxHeartbeats 1000000

namespace Lfz

/-! ## Counting admission gate (`Semaphore` in `src/build/orchestrator.rs`)

The Rust semaphore is a `Mutex<usize>` count plus a `Condvar`.
`Semaphore::new(count)` stores the raw count with no validation.
`acquire` loops `while *count == 0 { wait }` and then decrements;
dropping the RAII `SemaphorePermit` increments the count and calls
`notify_one`.  We model the gate as a state machine: `avail` is the
mutex-protected count, `held` the number of live permits, `runnable`
the threads inside `acquire` that are about to test the count, and
`blocked` the threads parked on the condition variable. -/

structure SemState where
  avail : Nat
  held : Nat
  blocked : Nat
  runnable : Nat
deriving DecidableEq, Repr

/-- Embeds `Semaphore::new(count)`: stores the count unchanged; no validation. -/
def Semaphore.new (count : Nat) : SemState :=
  { avail := count, held := 0, blocked := 0, runnable := 0 }

/-- Dropping a `SemaphorePermit`: `*count += 1; notify_one()`.
A parked waiter, if any, is woken and re-enters the acquire loop. -/
def Semaphore.release (s : SemState) : SemState :=
  if 0 < s.blocked then
    { avail := s.avail + 1, held := s.held - 1,
      blocked := s.blocked - 1, runnable := s.runnable + 1 }
  else
    { avail := s.avail + 1, held := s.held - 1,
      blocked := s.blocked, runnable := s.runnable }

/-- A thread in `acquire` can be admitted: it holds the mutex, sees a
positive count and decrements it. -/
def grantEnabled (s : SemState) : Prop :=
  0 < s.runnable ∧ 0 < s.avail

instance (s : SemState) : Decidable (grantEnabled s) := by
  unfold grantEnabled; infer_instance

/-- Interleaving semantics of the semaphore operations. -/
inductive SemStep : SemState → SemState → Prop
  /-- A new thread calls `acquire` and reaches the count test. -/
  | arrive (s : SemState) :
      SemStep s { s with runnable := s.runnable + 1 }
  /-- An acquiring thread sees `*count > 0`, decrements it, and becomes
  a holder (returns a permit). -/
  | grant (s : SemState) (hr : 0 < s.runnable) (ha : 0 < s.avail) :
      SemStep s { avail := s.avail - 1, held := s.held + 1,
                  blocked := s.blocked, runnable := s.runnable - 1 }
  /-- An acquiring thread sees `*count == 0` and parks on the condvar. -/
  | block (s : SemState) (hr : 0 < s.runnable) (ha : s.avail = 0) :
      SemStep s { s with blocked := s.blocked + 1, runnable := s.runnable - 1 }
  /-- A holder drops its permit. -/
  | release (s : SemState) (hh : 0 < s.held) :
      SemStep s (Semaphore.release s)

/-- States reachable from a freshly constructed gate of capacity `k`. -/
def SemReachable (k : Nat) (s : SemState) : Prop :=
  Relation.ReflTransGen SemStep (Semaphore.new k) s

/-- The `num_jobs` resolution in `src/cli/build.rs`:
`jobs.unwrap_or(targets.len()).max(1)`. -/
def num_jobs (jobs : Option Nat) (targetCount : Nat) : Nat :=
  (jobs.getD targetCount).max 1

/-! ## Build targets (`src/build/target.rs`) -/

/-- A resolved build target ready for building. -/
structure BuildTarget where
  board : String
  shield : Option String
  cmake_args : List String
  snippet : Option String
  artifact_name : String
  build_dir : String
  group : Option String
deriving DecidableEq, Repr

/-- Rust `str::split_whitespace`: split on whitespace, dropping empty chunks. -/
def splitWhitespace (s : String) : List String :=
  (s.split Char.isWhitespace).filter (fun t => t ≠ "")

namespace BuildTarget

/-- Replace every non-overlapping occurrence of `//` by `_`, scanning left to
right — the semantics of Rust `str::replace("//", "_")` at character level. -/
def replaceDoubleSlash : List Char → List Char
  | '/' :: '/' :: rest => '_' :: replaceDoubleSlash rest
  | c :: rest => c :: replaceDoubleSlash rest
  | [] => []

/-- Embeds `sanitize_board`: replaces the sysbuild `//` qualifier with `_`. -/
def sanitize_board (board : String) : String :=
  { data := replaceDoubleSlash board.data }

/-- Embeds `generate_artifact_name`: ZMK naming scheme
`${shield:+$shield-}${board//\x2f\x2f/_}-zmk`. -/
def generate_artifact_name (board : String) (shield : Option String) : String :=
  let sanitized := sanitize_board board
  match shield with
  | some s => s ++ "-" ++ sanitized ++ "-zmk"
  | none => sanitized ++ "-zmk"

/-- Embeds `BuildTarget::from_args`. -/
def from_args (board : String) (shield : Option String) : BuildTarget :=
  let name := generate_artifact_name board shield
  { board := board, shield := shield, cmake_args := [], snippet := none,
    artifact_name := name, build_dir := "build/" ++ name, group := none }

/-- Embeds `BuildTarget::west_build_args`: the west invocation argument list;
`-p` is appended exactly when `pristine` is requested. -/
def west_build_args (t : BuildTarget) (config_path : String) (pristine : Bool) :
    List String :=
  ["build", "-s", "zmk/app", "-d", t.build_dir, "-b", t.board]
    ++ (if pristine then ["-p"] else [])
    ++ (match t.snippet with
        | some snippet => (splitWhitespace snippet).flatMap (fun s => ["-S", s])
        | none => [])
    ++ ["--", "-DZMK_CONFIG=" ++ config_path]
    ++ (match t.shield with
        | some shield => ["-DSHIELD=" ++ shield]
        | none => [])
    ++ t.cmake_args

/-- Embeds `BuildTarget::firmware_path_candidates`: the two candidate
firmware locations, in priority order (standard layout, then sysbuild
zmk-domain layout). -/
def firmware_path_candidates (t : BuildTarget) : List String :=
  [t.build_dir ++ "/zephyr/zmk.uf2", t.build_dir ++ "/zmk/zephyr/zmk.uf2"]

end BuildTarget

/-! ## Cache-invalidation tracker (`src/workspace/hash_tracker.rs`) -/

/-- The snapshot file name stored inside a cached workspace. -/
def HASH_FILE : String := ".lfz_build_hashes.json"

/-- The path of the snapshot file: `workspace.join(HASH_FILE)`. -/
def hashFilePath (workspace : String) : String :=
  workspace ++ "/" ++ HASH_FILE

/-- Hashes of configuration files that affect build output. -/
structure BuildHashes where
  build_yaml : String
  west_yml : String
  boards_dir : Option String
  shields_dir : Option String
deriving DecidableEq, Repr

/-- Embeds `BuildHashes::matches`: derived `PartialEq` equality of all fields. -/
def BuildHashes.matches (self other : BuildHashes) : Bool :=
  decide (self = other)

/-- Observable state of the snapshot file inside a workspace: the file may be
absent, present but unreadable (an I/O error), or present with some text. -/
inductive WsSnapshot where
  | absent
  | unreadable
  | content (s : String)
deriving DecidableEq, Repr

/-- Embeds `BuildHashes::load`, parameterised by the JSON decoder
(`serde_json::from_str`): an absent file yields `Ok(None)`; a read failure or
a parse failure yields `Err` with the corresponding context message. -/
def BuildHashes.load (parse : String → Option BuildHashes) (workspace : String)
    (st : WsSnapshot) : Except String (Option BuildHashes) :=
  match st with
  | .absent => .ok none
  | .unreadable => .error ("Failed to read " ++ hashFilePath workspace)
  | .content s =>
      match parse s with
      | some hashes => .ok (some hashes)
      | none => .error ("Failed to parse " ++ hashFilePath workspace)

/-- Embeds `is_incremental_safe`: stored hashes must load and match exactly;
no stored hashes or a load error mean pristine. -/
def is_incremental_safe (parse : String → Option BuildHashes) (workspace : String)
    (st : WsSnapshot) (current : BuildHashes) : Bool :=
  match BuildHashes.load parse workspace st with
  | .ok (some stored) => current.matches stored
  | .ok none => false
  | .error _ => false

/-- A JSON decoder that rejects every input, modelling an unparseable snapshot. -/
def rejectAll : String → Option BuildHashes := fun _ => none

/-- A JSON decoder that decodes every input to one fixed snapshot, modelling a
stored snapshot that parses successfully. -/
def acceptStored : String → Option BuildHashes :=
  fun _ => some { build_yaml := "b", west_yml := "w", boards_dir := none, shields_dir := none }

/-- Contents of a concrete two-file directory: file `[1]` holds bytes `[9, 9]`
and file `[3]` holds bytes `[5]`. -/
def fsA : List Nat → List Nat :=
  fun q => if q = [1] then [9, 9] else if q = [3] then [5] else []

/-- The same directory after renaming file `[1]` to `[2]` (same contents). -/
def fsB : List Nat → List Nat :=
  fun q => if q = [2] then [9, 9] else if q = [3] then [5] else []

/-! ## Directory hashing (`hash_directory` / `collect_files`)

`hash_directory` collects all files below a directory, sorts the paths, and
feeds `relative_path ++ b"\x00" ++ contents ++ b"\x00"` per file, in sorted
order, into SHA-256.  We model paths and file contents as byte lists and the
digest by the exact byte stream fed to the hasher (the digest is a function
of that stream). -/

/-- Embeds `files.sort()`: the collected file paths in ascending order. -/
def sortFiles (files : List (List Nat)) : List (List Nat) :=
  List.insertionSort (fun a b => a ≤ b) files

/-- The bytes fed to the hasher for a given (already ordered) file list:
per file, the relative path, a zero separator, the contents (given by the
directory's content map `fs`), and a zero separator. -/
def hashStream (fs : List Nat → List Nat) (files : List (List Nat)) : List Nat :=
  (files.map (fun p => p ++ [0] ++ fs p ++ [0])).flatten

/-- Embeds `hash_directory`: the full byte stream fed to SHA-256, with the
collected relative paths sorted first. -/
def hash_directory_input (fs : List Nat → List Nat) (files : List (List Nat)) :
    List Nat :=
  hashStream fs (sortFiles files)

/-! ## CLI-level cache-mode resolution (`src/cli/build.rs`) -/

/-- Embeds `let pristine = !incremental;` in `cli::build::run`: the cache mode
is taken from the CLI flag alone. -/
def cliPristine (incremental : Bool) : Bool :=
  !incremental

/-! ## Artifact resolution (`src/build/artifacts.rs`)

The filesystem is modelled as the list of existing files (path and contents)
plus the list of existing directories.  Paths are joined with `/` as
`Path::join` does for relative components. -/

/-- A snapshot of the relevant filesystem state. -/
structure FileSys where
  files : List (String × String)
  dirs : List String
deriving DecidableEq, Repr

/-- Embeds `Path::join` for a relative right-hand component. -/
def joinPath (base rel : String) : String :=
  base ++ "/" ++ rel

/-- Read a file's contents, if the path names an existing file. -/
def FileSys.readFile (fs : FileSys) (p : String) : Option String :=
  (fs.files.find? (fun e => e.1 = p)).map Prod.snd

/-- Embeds `Path::exists`: true for existing files and directories. -/
def FileSys.existsPath (fs : FileSys) (p : String) : Bool :=
  (fs.readFile p).isSome || fs.dirs.contains p

/-- Embeds `fs::create_dir_all(parent)`: afterwards the directory exists. -/
def FileSys.create_dir_all (fs : FileSys) (d : String) : FileSys :=
  { fs with dirs := d :: fs.dirs }

/-- Embeds `Path::parent` for our string paths: the path without its last
`/`-separated component, or none for a single-component path. -/
def parentDir (p : String) : Option String :=
  let parts := p.splitOn "/"
  if parts.length ≤ 1 then none
  else some (String.intercalate "/" parts.dropLast)

/-- Embeds `collect_artifact`: find the first existing candidate firmware
path, create the destination's parent directories, and copy it to
`output_dir/<artifact_name>.uf2`; if no candidate exists, fail with an error
listing every path searched. -/
def collect_artifact (fs : FileSys) (workspace : String) (t : BuildTarget)
    (output_dir : String) : Except String (String × FileSys) :=
  let tried := t.firmware_path_candidates.map (fun c => joinPath workspace c)
  match tried.find? fs.existsPath with
  | none =>
      .error ("Build artifact not found. Searched:\n  " ++
        String.intercalate "\n  " tried)
  | some source =>
      let dest := joinPath output_dir (t.artifact_name ++ ".uf2")
      let fs1 := match parentDir dest with
        | some parent => fs.create_dir_all parent
        | none => fs
      match fs1.readFile source with
      | some contents => .ok (dest, { fs1 with files := (dest, contents) :: fs1.files })
      | none => .error ("Failed to copy " ++ source ++ " to " ++ dest)

/-! ## Build-task result construction (`src/build/orchestrator.rs`)

Each per-target task interacts with the outside world at a fixed set of
points: resolving the ccache directory, spawning the child, waiting for it,
draining its stdout/stderr, collecting the artifact, and reading the clock.
A `TaskEnv` records the outcome of each interaction; the task functions are
then pure maps from a target and its environment to a `BuildResult`. -/

/-- Exit status of the child process; `success` means exit code zero. -/
structure ExitStatus where
  code : Option Int
deriving DecidableEq, Repr

/-- Embeds `ExitStatus::success` (Unix: code is `Some(0)`). -/
def ExitStatus.success (st : ExitStatus) : Bool :=
  decide (st.code = some 0)

/-- Rust `format!("{:?}", code)` on an `Option<i32>`. -/
def formatOptionCode : Option Int → String
  | some n => "Some(" ++ toString n ++ ")"
  | none => "None"

/-- Embeds the `BuildResult` record. -/
structure BuildResult where
  target_name : String
  success : Bool
  error : Option String
  error_output : Option String
  artifact_path : Option String
  duration : Option Nat
deriving DecidableEq, Repr

/-- Outcomes of a single build task's interactions with the world. -/
structure TaskEnv where
  ccache_dir : Except String String
  spawn : Except String Unit
  wait : Except String ExitStatus
  stdout_output : String
  stderr_output : String
  artifact : Except String String
  elapsed : Nat
deriving Repr

/-- The stdout/stderr combination used on failure: stdout, then a newline
separator if both are nonempty, then stderr. -/
def combinedOutput (stdout_output stderr_output : String) : String :=
  if stderr_output = "" then stdout_output
  else if stdout_output = "" then stderr_output
  else stdout_output ++ "\n" ++ stderr_output

/-- Embeds `build_target_inner` (sequential non-verbose task):
captures output, combines stdout and stderr on failure. -/
def build_target_inner (t : BuildTarget) (env : TaskEnv) (quiet : Bool) :
    BuildResult :=
  let _ := quiet
  match env.ccache_dir with
  | .error e =>
      { target_name := t.artifact_name, success := false,
        error := some ("Failed to get ccache dir: " ++ e),
        error_output := none, artifact_path := none, duration := none }
  | .ok _ =>
    match env.spawn with
    | .error e =>
        { target_name := t.artifact_name, success := false,
          error := some ("Failed to spawn build process: " ++ e),
          error_output := none, artifact_path := none, duration := none }
    | .ok _ =>
      match env.wait with
      | .error e =>
          { target_name := t.artifact_name, success := false,
            error := some ("Failed to wait for build: " ++ e),
            error_output := none, artifact_path := none, duration := none }
      | .ok status =>
        if status.success then
          match env.artifact with
          | .ok artifact_path =>
              { target_name := t.artifact_name, success := true,
                error := none, error_output := none,
                artifact_path := some artifact_path,
                duration := some env.elapsed }
          | .error e =>
              { target_name := t.artifact_name, success := false,
                error := some ("Failed to collect artifact: " ++ e),
                error_output := none, artifact_path := none,
                duration := some env.elapsed }
        else
          let combined := combinedOutput env.stdout_output env.stderr_output
          { target_name := t.artifact_name, success := false,
            error := some ("Build failed with exit code: " ++
              formatOptionCode status.code),
            error_output := if combined = "" then none else some combined,
            artifact_path := none, duration := some env.elapsed }

/-- Embeds `build_target_with_progress` (parallel non-verbose task): the
result construction is identical to `build_target_inner`; only the progress
reporting differs. -/
def build_target_with_progress (t : BuildTarget) (env : TaskEnv) :
    BuildResult :=
  match env.ccache_dir with
  | .error e =>
      { target_name := t.artifact_name, success := false,
        error := some ("Failed to get ccache dir: " ++ e),
        error_output := none, artifact_path := none, duration := none }
  | .ok _ =>
    match env.spawn with
    | .error e =>
        { target_name := t.artifact_name, success := false,
          error := some ("Failed to spawn build process: " ++ e),
          error_output := none, artifact_path := none, duration := none }
    | .ok _ =>
      match env.wait with
      | .error e =>
          { target_name := t.artifact_name, success := false,
            error := some ("Failed to wait for build: " ++ e),
            error_output := none, artifact_path := none, duration := none }
      | .ok status =>
        if status.success then
          match env.artifact with
          | .ok artifact_path =>
              { target_name := t.artifact_name, success := true,
                error := none, error_output := none,
                artifact_path := some artifact_path,
                duration := some env.elapsed }
          | .error e =>
              { target_name := t.artifact_name, success := false,
                error := some ("Failed to collect artifact: " ++ e),
                error_output := none, artifact_path := none,
                duration := some env.elapsed }
        else
          let combined := combinedOutput env.stdout_output env.stderr_output
          { target_name := t.artifact_name, success := false,
            error := some ("Build failed with exit code: " ++
              formatOptionCode status.code),
            error_output := if combined = "" then none else some combined,
            artifact_path := none, duration := some env.elapsed }

/-- Embeds `build_target_verbose_parallel`: output is streamed live with a
coloured prefix and never captured, so `error_output` is always none; a wait
failure here still records the elapsed duration. -/
def build_target_verbose_parallel (t : BuildTarget) (env : TaskEnv) :
    BuildResult :=
  match env.ccache_dir with
  | .error e =>
      { target_name := t.artifact_name, success := false,
        error := some ("Failed to get ccache dir: " ++ e),
        error_output := none, artifact_path := none, duration := none }
  | .ok _ =>
    match env.spawn with
    | .error e =>
        { target_name := t.artifact_name, success := false,
          error := some ("Failed to spawn build process: " ++ e),
          error_output := none, artifact_path := none, duration := none }
    | .ok _ =>
      match env.wait with
      | .error e =>
          { target_name := t.artifact_name, success := false,
            error := some ("Failed to wait for build: " ++ e),
            error_output := none, artifact_path := none,
            duration := some env.elapsed }
      | .ok status =>
        if status.success then
          match env.artifact with
          | .ok artifact_path =>
              { target_name := t.artifact_name, success := true,
                error := none, error_output := none,
                artifact_path := some artifact_path,
                duration := some env.elapsed }
          | .error e =>
              { target_name := t.artifact_name, success := false,
                error := some ("Failed to collect artifact: " ++ e),
                error_output := none, artifact_path := none,
                duration := some env.elapsed }
        else
          { target_name := t.artifact_name, success := false,
            error := some ("Build failed with exit code: " ++
              formatOptionCode status.code),
            error_output := none, artifact_path := none,
            duration := some env.elapsed }

/-- Embeds `build_target_verbose_inner` (sequential verbose task): the child
inherits stdout/stderr (`cmd.status()` combines spawn and wait), nothing is
captured, so `error_output` is always none. -/
def build_target_verbose_inner (t : BuildTarget) (env : TaskEnv) :
    BuildResult :=
  match env.ccache_dir with
  | .error e =>
      { target_name := t.artifact_name, success := false,
        error := some ("Failed to get ccache dir: " ++ e),
        error_output := none, artifact_path := none, duration := none }
  | .ok _ =>
    match env.spawn with
    | .error e =>
        { target_name := t.artifact_name, success := false,
          error := some ("Failed to run build: " ++ e),
          error_output := none, artifact_path := none, duration := none }
    | .ok _ =>
      match env.wait with
      | .error e =>
          { target_name := t.artifact_name, success := false,
            error := some ("Failed to run build: " ++ e),
            error_output := none, artifact_path := none, duration := none }
      | .ok status =>
        if status.success then
          match env.artifact with
          | .ok artifact_path =>
              { target_name := t.artifact_name, success := true,
                error := none, error_output := none,
                artifact_path := some artifact_path,
                duration := some env.elapsed }
          | .error e =>
              { target_name := t.artifact_name, success := false,
                error := some ("Failed to collect artifact: " ++ e),
                error_output := none, artifact_path := none,
                duration := some env.elapsed }
        else
          { target_name := t.artifact_name, success := false,
            error := some ("Build failed with exit code: " ++
              formatOptionCode status.code),
            error_output := none, artifact_path := none,
            duration := some env.elapsed }

/-- Embeds `build_sequential`: one result per target, in target order;
verbose selects the verbose task function. -/
def build_sequential (verbose quiet : Bool) (envOf : BuildTarget → TaskEnv)
    (targets : List BuildTarget) : List BuildResult :=
  targets.map (fun t =>
    if verbose then build_target_verbose_inner t (envOf t)
    else build_target_inner t (envOf t) quiet)

/-- Embeds `build_parallel`: one task per target; results accumulate in the
shared vector in completion order, i.e. along some permutation `completed`
of the target list. -/
def build_parallel (verbose : Bool) (envOf : BuildTarget → TaskEnv)
    (completed : List BuildTarget) : List BuildResult :=
  completed.map (fun t =>
    if verbose then build_target_verbose_parallel t (envOf t)
    else build_target_with_progress t (envOf t))

/-- The field invariant of every produced `BuildResult`: success implies no
error, no error output, an artifact path and a duration; failure implies an
error message and no artifact path. -/
def resultInvariant (r : BuildResult) : Bool :=
  (!r.success || (r.error.isNone && r.error_output.isNone &&
    r.artifact_path.isSome && r.duration.isSome)) &&
  (r.success || (r.error.isSome && r.artifact_path.isNone))

/-- A concrete environment: the toolchain runs and exits with code 1 after
printing one line on each stream. -/
def envFail : TaskEnv :=
  { ccache_dir := .ok "/root/.ccache", spawn := .ok (),
    wait := .ok { code := some 1 }, stdout_output := "out line",
    stderr_output := "err line", artifact := .error "unused", elapsed := 5 }

/-- A concrete environment: the toolchain succeeds and the artifact resolves. -/
def envOk : TaskEnv :=
  { ccache_dir := .ok "/root/.ccache", spawn := .ok (),
    wait := .ok { code := some 0 }, stdout_output := "",
    stderr_output := "", artifact := .ok "out/a.uf2", elapsed := 7 }

/-- An environment assignment for scheduling examples: every target other
than `a-zmk` succeeds, `a-zmk` fails. -/
def envOfW : BuildTarget → TaskEnv :=
  fun t => if t.artifact_name = "a-zmk" then envFail else envOk

/-- A concrete target for artifact-resolution examples. -/
def t0Witness : BuildTarget := BuildTarget.from_args "b" none

/-- A filesystem holding only the sysbuild-layout firmware for `t0Witness`. -/
def fs0Witness : FileSys :=
  { files := [("ws/build/b-zmk/zmk/zephyr/zmk.uf2", "fw")], dirs := [] }

/-! ## Theorems about the admission gate -/

/-- The conserved quantity: available capacity plus live holders. -/
theorem semStep_preserves_sum {s t : SemState} (h : SemStep s t) :
    t.avail + t.held = s.avail + s.held := by
  cases h with
  | arrive => rfl
  | grant hr ha => simp only; omega
  | block hr ha => rfl
  | release hh =>
      unfold Semaphore.release
      split <;> simp only <;> omega

/-- Capacity conservation along every reachable state. -/
theorem semReachable_sum {k : Nat} {s : SemState} (h : SemReachable k s) :
    s.avail + s.held = k := by
  induction h with
  | refl => rfl
  | tail _ hstep ih => rw [semStep_preserves_sum hstep]; exact ih

/-- Claim C1: for every capacity `k` the number of simultaneously admitted
holders never exceeds `k` in any reachable state, and releasing a permit
increases the available capacity by one and wakes one blocked waiter if
any are blocked. -/
theorem admission_gate_bounded (k : Nat) (s : SemState)
    (hreach : SemReachable k s) :
    s.held ≤ k ∧
      (0 < s.held →
        (Semaphore.release s).avail = s.avail + 1 ∧
        (0 < s.blocked →
          (Semaphore.release s).blocked = s.blocked - 1 ∧
          (Semaphore.release s).runnable = s.runnable + 1)) := by
  have hsum := semReachable_sum hreach
  refine ⟨by omega, fun _ => ⟨?_, fun hb => ?_⟩⟩
  · unfold Semaphore.release; split <;> rfl
  · unfold Semaphore.release; rw [if_pos hb]; exact ⟨rfl, rfl⟩

/-- Witness for `admission_gate_bounded`: the state with one holder and one
blocked waiter, reached from a gate of capacity 1 by arrive, admit, arrive,
block. -/
theorem admission_gate_bounded_witness :
    (⟨0, 1, 1, 0⟩ : SemState).held ≤ 1 ∧
      (0 < (⟨0, 1, 1, 0⟩ : SemState).held →
        (Semaphore.release ⟨0, 1, 1, 0⟩).avail = (⟨0, 1, 1, 0⟩ : SemState).avail + 1 ∧
        (0 < (⟨0, 1, 1, 0⟩ : SemState).blocked →
          (Semaphore.release ⟨0, 1, 1, 0⟩).blocked = (⟨0, 1, 1, 0⟩ : SemState).blocked - 1 ∧
          (Semaphore.release ⟨0, 1, 1, 0⟩).runnable = (⟨0, 1, 1, 0⟩ : SemState).runnable + 1)) := by
  have st1 : SemStep (Semaphore.new 1) ⟨1, 0, 0, 1⟩ := SemStep.arrive _
  have st2 : SemStep ⟨1, 0, 0, 1⟩ ⟨0, 1, 0, 0⟩ := SemStep.grant _ (by decide) (by decide)
  have st3 : SemStep ⟨0, 1, 0, 0⟩ ⟨0, 1, 0, 1⟩ := SemStep.arrive _
  have st4 : SemStep ⟨0, 1, 0, 1⟩ ⟨0, 1, 1, 0⟩ := SemStep.block _ (by decide) (by decide)
  exact admission_gate_bounded 1 ⟨0, 1, 1, 0⟩
    (Relation.ReflTransGen.tail
      (Relation.ReflTransGen.tail
        (Relation.ReflTransGen.tail
          (Relation.ReflTransGen.tail Relation.ReflTransGen.refl st1) st2) st3) st4)

/-- Claim C7 counterexample: `Semaphore::new(0)` is not rejected — it constructs
a gate with zero capacity, and an acquirer arriving at such a gate can never
be admitted (its `acquire` blocks forever). -/
theorem semaphore_new_zero_accepted :
    Semaphore.new 0 = { avail := 0, held := 0, blocked := 0, runnable := 0 } ∧
      ¬ grantEnabled { Semaphore.new 0 with runnable := 1 } := by
  exact ⟨rfl, by decide⟩

/-- Claim C7 (amended): `Semaphore::new` performs no validation and accepts a
zero limit; however the build CLI computes `num_jobs = jobs.unwrap_or(n).max(1)`,
so every gate the build command constructs has capacity at least 1 and an
arriving acquirer can be admitted immediately. -/
theorem constructed_gate_positive_capacity (jobs : Option Nat) (targetCount : Nat) :
    1 ≤ num_jobs jobs targetCount ∧
      (Semaphore.new (num_jobs jobs targetCount)).avail = num_jobs jobs targetCount ∧
      grantEnabled { Semaphore.new (num_jobs jobs targetCount) with runnable := 1 } := by
  refine ⟨Nat.le_max_right _ 1, rfl, Nat.one_pos, ?_⟩
  exact Nat.lt_of_lt_of_le Nat.zero_lt_one (Nat.le_max_right _ 1)

/-! ## Theorems about the cache-invalidation tracker -/

/-- Claim C5: `is_incremental_safe` returns true exactly when the snapshot
file is present, its text parses, and every field of the stored snapshot
equals the corresponding field of the current one; absence, read or parse
failures, and any field mismatch all yield false. -/
theorem is_incremental_safe_iff (parse : String → Option BuildHashes)
    (workspace : String) (st : WsSnapshot) (current : BuildHashes) :
    is_incremental_safe parse workspace st current = true ↔
      ∃ s stored, st = WsSnapshot.content s ∧ parse s = some stored ∧
        stored.build_yaml = current.build_yaml ∧
        stored.west_yml = current.west_yml ∧
        stored.boards_dir = current.boards_dir ∧
        stored.shields_dir = current.shields_dir := by
  unfold is_incremental_safe BuildHashes.load
  cases st with
  | absent => simp
  | unreadable => simp
  | content s =>
      cases hp : parse s with
      | none => simp [hp]
      | some stored =>
          simp only [hp, BuildHashes.matches, decide_eq_true_eq]
          constructor
          · intro h
            refine ⟨s, stored, rfl, hp, ?_, ?_, ?_, ?_⟩ <;> rw [← h]
          · rintro ⟨s', stored', hs, hp', h1, h2, h3, h4⟩
            injection hs with hss
            subst hss
            rw [hp] at hp'
            injection hp' with hst
            subst hst
            obtain ⟨sb, sw, sbd, ssd⟩ := stored
            obtain ⟨cb, cw, cbd, csd⟩ := current
            dsimp only at h1 h2 h3 h4
            subst h1 h2 h3 h4
            rfl

/-- Claim C6 counterexample: a present-but-unparseable snapshot makes `load`
return an error, not none. -/
theorem load_unparseable_counterexample :
    BuildHashes.load rejectAll "ws" (WsSnapshot.content "not json") =
      Except.error ("Failed to parse " ++ hashFilePath "ws") ∧
      BuildHashes.load rejectAll "ws" (WsSnapshot.content "not json") ≠
        Except.ok none := by
  refine ⟨rfl, ?_⟩
  simp [BuildHashes.load, rejectAll]

/-- Claim C6 (amended): `load` returns none exactly when the snapshot file is
absent; a present-but-unparseable snapshot yields an error, which the sole
caller `is_incremental_safe` maps to false, so the build degrades to pristine
mode rather than aborting. -/
theorem load_none_iff_absent (parse : String → Option BuildHashes)
    (workspace : String) (st : WsSnapshot) (current : BuildHashes) :
    (BuildHashes.load parse workspace st = Except.ok none ↔
        st = WsSnapshot.absent) ∧
      (∀ s, st = WsSnapshot.content s → parse s = none →
        BuildHashes.load parse workspace st =
          Except.error ("Failed to parse " ++ hashFilePath workspace) ∧
        is_incremental_safe parse workspace st current = false) := by
  constructor
  · cases st with
    | absent => simp [BuildHashes.load]
    | unreadable => simp [BuildHashes.load]
    | content s => cases hp : parse s <;> simp [BuildHashes.load, hp]
  · rintro s rfl hp
    constructor <;> simp [BuildHashes.load, is_incremental_safe, hp]

/-- Witness for `load_none_iff_absent` at a concrete unparseable snapshot. -/
theorem load_none_iff_absent_witness :
    BuildHashes.load rejectAll "w" (WsSnapshot.content "x") =
      Except.error ("Failed to parse " ++ hashFilePath "w") ∧
    is_incremental_safe rejectAll "w" (WsSnapshot.content "x")
      { build_yaml := "", west_yml := "", boards_dir := none, shields_dir := none } = false :=
  (load_none_iff_absent rejectAll "w" (WsSnapshot.content "x")
    { build_yaml := "", west_yml := "", boards_dir := none, shields_dir := none }).2
    "x" rfl rfl

/-! ## Theorems about CLI cache-mode resolution -/

/-- Claim C2 counterexample: a workspace whose stored snapshot matches the
current hashes (so `is_incremental_safe` is true) is nevertheless built with
the pristine `-p` flag when the CLI `--incremental` flag is absent — the
cache mode comes from the CLI flag, not from the tracker. -/
theorem cache_mode_ignores_tracker :
    is_incremental_safe acceptStored "w" (WsSnapshot.content "good")
        { build_yaml := "b", west_yml := "w", boards_dir := none, shields_dir := none } = true ∧
      cliPristine false = true ∧
      "-p" ∈ (BuildTarget.from_args "nice_nano_v2" none).west_build_args
        "/workspace/config" (cliPristine false) := by
  refine ⟨by decide, rfl, by decide⟩

/-- Claim C2 (amended): the cache mode of every per-target task is resolved
once per run from the CLI `--incremental` flag as `pristine = !incremental`,
uniformly for all targets and independent of the workspace snapshot state;
the west arguments contain the clean-build flag `-p` exactly when
`--incremental` is absent.  The build path neither consults
`is_incremental_safe` nor persists a `BuildHashes` snapshot. -/
theorem cache_mode_from_cli_flag (incremental : Bool) (t : BuildTarget)
    (cfg : String) :
    cliPristine incremental = !incremental ∧
      ∃ pre post,
        pre = ["build", "-s", "zmk/app", "-d", t.build_dir, "-b", t.board] ∧
        t.west_build_args cfg true = pre ++ ["-p"] ++ post ∧
        t.west_build_args cfg false = pre ++ post := by
  refine ⟨rfl, ["build", "-s", "zmk/app", "-d", t.build_dir, "-b", t.board],
    (match t.snippet with
      | some snippet => (splitWhitespace snippet).flatMap (fun s => ["-S", s])
      | none => [])
      ++ ["--", "-DZMK_CONFIG=" ++ cfg]
      ++ (match t.shield with
          | some shield => ["-DSHIELD=" ++ shield]
          | none => [])
      ++ t.cmake_args, rfl, ?_, ?_⟩ <;>
    simp [BuildTarget.west_build_args]

/-! ## Theorems about directory hashing -/

/-- Blocks of the form `path ++ 0 :: rest` decompose uniquely when the path
contains no zero byte. -/
theorem nulfree_block_eq {p₁ p₂ t₁ t₂ : List Nat}
    (h : p₁ ++ 0 :: t₁ = p₂ ++ 0 :: t₂)
    (h₁ : 0 ∉ p₁) (h₂ : 0 ∉ p₂) : p₁ = p₂ ∧ t₁ = t₂ := by
  induction p₁ generalizing p₂ with
  | nil =>
      cases p₂ with
      | nil =>
          refine ⟨rfl, ?_⟩
          simpa using h
      | cons y ys =>
          simp only [List.nil_append, List.cons_append] at h
          injection h with h1 _
          subst h1
          exact absurd (List.mem_cons_self _ _) h₂
  | cons x xs ih =>
      cases p₂ with
      | nil =>
          simp only [List.cons_append, List.nil_append] at h
          injection h with h1 _
          subst h1
          exact absurd (List.mem_cons_self _ _) h₁
      | cons y ys =>
          simp only [List.cons_append] at h
          injection h with h1 h2
          subst h1
          obtain ⟨hp, ht⟩ := ih h2
            (fun hx => h₁ (List.mem_cons_of_mem _ hx))
            (fun hy => h₂ (List.mem_cons_of_mem _ hy))
          exact ⟨by rw [hp], ht⟩

/-- Renaming one file while keeping its contents and all other files fixed
changes the byte stream fed to the hasher, for any enumeration orders of the
two directories.  Paths must be zero-free (the zero byte is the separator). -/
theorem hashStream_rename_ne (fs fs' : List Nat → List Nat) :
    ∀ (A B : List (List Nat)) (p p' : List Nat) (R : List (List Nat)),
      A.Perm (p :: R) → B.Perm (p' :: R) →
      (∀ q ∈ p :: p' :: R, 0 ∉ q) →
      p ≠ p' → p ∉ R → p' ∉ R →
      (∀ q ∈ R, fs q = fs' q) → fs' p' = fs p →
      hashStream fs A ≠ hashStream fs' B := by
  intro A
  induction A with
  | nil =>
      intro B p p' R hA _ _ _ _ _ _ _ _
      have := hA.length_eq
      simp at this
  | cons a A ih =>
      intro B p p' R hA hB hnul hne hpR hp'R hagree hc heq
      cases B with
      | nil =>
          have := hB.length_eq
          simp at this
      | cons b B' =>
          have hmemA : a ∈ p :: R := hA.subset (List.mem_cons_self a A)
          have hmemB : b ∈ p' :: R := hB.subset (List.mem_cons_self b B')
          have hnulA : 0 ∉ a := by
            rcases List.mem_cons.mp hmemA with h | h
            · exact h ▸ hnul p (List.mem_cons_self _ _)
            · exact hnul a (List.mem_cons_of_mem _ (List.mem_cons_of_mem _ h))
          have hnulB : 0 ∉ b := by
            rcases List.mem_cons.mp hmemB with h | h
            · exact h ▸ hnul p' (List.mem_cons_of_mem _ (List.mem_cons_self _ _))
            · exact hnul b (List.mem_cons_of_mem _ (List.mem_cons_of_mem _ h))
          simp only [hashStream, List.map_cons, List.flatten_cons,
            List.append_assoc, List.singleton_append] at heq
          obtain ⟨hab, htail⟩ := nulfree_block_eq heq hnulA hnulB
          subst hab
          -- the shared head must come from `R`
          have haR : a ∈ R := by
            rcases List.mem_cons.mp hmemA with h | h
            · subst h
              rcases List.mem_cons.mp hmemB with h' | h'
              · exact absurd h' hne
              · exact absurd h' hpR
            · exact h
          have hfs : fs a = fs' a := hagree a haR
          rw [hfs] at htail
          have hstail : hashStream fs A = hashStream fs' B' := by
            have h2 := List.append_cancel_left htail
            injection h2 with _ h3
            simpa [hashStream] using h3
          -- peel the shared occurrence of `a` out of `R` and recurse
          obtain ⟨R₁, R₂, rfl⟩ := List.append_of_mem haR
          have hsub : ∀ q : List Nat, q ∈ R₁ ++ R₂ → q ∈ R₁ ++ a :: R₂ := by
            intro q hq
            rcases List.mem_append.mp hq with h | h
            · exact List.mem_append_left _ h
            · exact List.mem_append_right _ (List.mem_cons_of_mem _ h)
          have hA2 : A.Perm (p :: (R₁ ++ R₂)) := by
            have hmid : (p :: (R₁ ++ a :: R₂)).Perm (a :: p :: (R₁ ++ R₂)) :=
              ((List.perm_middle).cons p).trans (List.Perm.swap a p _)
            exact (hA.trans hmid).cons_inv
          have hB2 : B'.Perm (p' :: (R₁ ++ R₂)) := by
            have hmid : (p' :: (R₁ ++ a :: R₂)).Perm (a :: p' :: (R₁ ++ R₂)) :=
              ((List.perm_middle).cons p').trans (List.Perm.swap a p' _)
            exact (hB.trans hmid).cons_inv
          refine ih B' p p' (R₁ ++ R₂) hA2 hB2 ?_ hne
            (fun h => hpR (hsub p h))
            (fun h => hp'R (hsub p' h))
            (fun q hq => hagree q (hsub q hq)) hc hstail
          intro q hq
          rcases List.mem_cons.mp hq with h | h
          · exact h ▸ hnul p (List.mem_cons_self _ _)
          rcases List.mem_cons.mp h with h' | h'
          · exact h' ▸ hnul p' (List.mem_cons_of_mem _ (List.mem_cons_self _ _))
          · exact hnul q
              (List.mem_cons_of_mem _ (List.mem_cons_of_mem _ (hsub q h')))

/-- Claim C4: directory hashing is deterministic — the byte stream fed to the
hash depends only on which (relative path, contents) files exist, not on the
enumeration order, because the paths are sorted first — and renaming one file
(same contents, different zero-free relative path) changes the byte stream
fed to the hash. -/
theorem hash_directory_deterministic_and_rename
    (fs fs' : List Nat → List Nat) (l₁ l₂ : List (List Nat))
    (p p' : List Nat) (R : List (List Nat))
    (hperm : l₁.Perm l₂)
    (hnul : ∀ q ∈ p :: p' :: R, 0 ∉ q)
    (hne : p ≠ p') (hpR : p ∉ R) (hp'R : p' ∉ R)
    (hagree : ∀ q ∈ R, fs q = fs' q) (hc : fs' p' = fs p) :
    hash_directory_input fs l₁ = hash_directory_input fs l₂ ∧
      hash_directory_input fs (p :: R) ≠ hash_directory_input fs' (p' :: R) := by
  constructor
  · unfold hash_directory_input
    congr 1
    unfold sortFiles
    exact List.eq_of_perm_of_sorted
      ((List.perm_insertionSort _ l₁).trans
        (hperm.trans (List.perm_insertionSort _ l₂).symm))
      (List.sorted_insertionSort _ l₁) (List.sorted_insertionSort _ l₂)
  · unfold hash_directory_input sortFiles
    exact hashStream_rename_ne fs fs' _ _ p p' R
      (List.perm_insertionSort _ _) (List.perm_insertionSort _ _)
      hnul hne hpR hp'R hagree hc

/-- Witness for `hash_directory_deterministic_and_rename`: the two-file
directory `fsA` over paths `[1]` and `[3]`, enumerated in both orders, and
its rename `fsB` where file `[1]` became file `[2]`. -/
theorem hash_directory_witness :
    hash_directory_input fsA [[1], [3]] = hash_directory_input fsA [[3], [1]] ∧
      hash_directory_input fsA ([1] :: [[3]]) ≠
        hash_directory_input fsB ([2] :: [[3]]) :=
  hash_directory_deterministic_and_rename fsA fsB [[1], [3]] [[3], [1]]
    [1] [2] [[3]]
    (by decide) (by decide) (by decide) (by decide) (by decide)
    (by decide) (by decide)

/-! ## Theorems about artifact resolution -/

/-- Creating a directory does not change any file's contents. -/
theorem readFile_create_dir_all (fs : FileSys) (d p : String) :
    (fs.create_dir_all d).readFile p = fs.readFile p := rfl

/-- After the copy, the destination reads back the copied contents. -/
theorem readFile_after_copy (files : List (String × String)) (dirs : List String)
    (dest contents : String) :
    FileSys.readFile { files := (dest, contents) :: files, dirs := dirs } dest =
      some contents := by
  simp [FileSys.readFile]

/-- When some candidate is found, `collect_artifact` copies it to the
destination, whose parent directories then exist. -/
theorem collect_artifact_found (fs : FileSys) (ws out : String) (t : BuildTarget)
    (src contents : String)
    (hfind : (t.firmware_path_candidates.map (fun c => joinPath ws c)).find?
        fs.existsPath = some src)
    (hread : fs.readFile src = some contents) :
    ∃ fs₂,
      collect_artifact fs ws t out =
        Except.ok (joinPath out (t.artifact_name ++ ".uf2"), fs₂) ∧
      fs₂.readFile (joinPath out (t.artifact_name ++ ".uf2")) = some contents ∧
      ∀ parent, parentDir (joinPath out (t.artifact_name ++ ".uf2")) = some parent →
        parent ∈ fs₂.dirs := by
  cases hpd : parentDir (joinPath out (t.artifact_name ++ ".uf2")) with
  | none =>
      refine ⟨{ files := (joinPath out (t.artifact_name ++ ".uf2"), contents) :: fs.files,
                 dirs := fs.dirs }, ?_, ?_, ?_⟩
      · simp only [collect_artifact, hfind, hpd, hread]
      · exact readFile_after_copy _ _ _ _
      · intro parent hp
        cases hp
  | some parent' =>
      refine ⟨{ files := (joinPath out (t.artifact_name ++ ".uf2"), contents) :: fs.files,
                 dirs := parent' :: fs.dirs }, ?_, ?_, ?_⟩
      · simp only [collect_artifact, hfind, hpd]
        have hread' : (fs.create_dir_all parent').readFile src = some contents := hread
        simp only [hread']
        rfl
      · exact readFile_after_copy _ _ _ _
      · intro parent hp
        injection hp with hpp
        subst hpp
        exact List.mem_cons_self _ _

/-- Claim C3: the artifact resolver returns the first candidate that exists
on disk (standard layout first, then the sysbuild domain layout), copying it
to `output_dir/<artifact_name>.uf2` and creating missing destination parent
directories; when no candidate exists it fails with an error whose text
contains every candidate path that was tried. -/
theorem collect_artifact_spec (fs : FileSys) (ws out : String) (t : BuildTarget)
    (contents : String) :
    (fs.readFile (joinPath ws (t.build_dir ++ "/zephyr/zmk.uf2")) = some contents →
      ∃ fs₂,
        collect_artifact fs ws t out =
          Except.ok (joinPath out (t.artifact_name ++ ".uf2"), fs₂) ∧
        fs₂.readFile (joinPath out (t.artifact_name ++ ".uf2")) = some contents ∧
        ∀ parent, parentDir (joinPath out (t.artifact_name ++ ".uf2")) = some parent →
          parent ∈ fs₂.dirs) ∧
    (fs.existsPath (joinPath ws (t.build_dir ++ "/zephyr/zmk.uf2")) = false →
      fs.readFile (joinPath ws (t.build_dir ++ "/zmk/zephyr/zmk.uf2")) = some contents →
      ∃ fs₂,
        collect_artifact fs ws t out =
          Except.ok (joinPath out (t.artifact_name ++ ".uf2"), fs₂) ∧
        fs₂.readFile (joinPath out (t.artifact_name ++ ".uf2")) = some contents ∧
        ∀ parent, parentDir (joinPath out (t.artifact_name ++ ".uf2")) = some parent →
          parent ∈ fs₂.dirs) ∧
    (fs.existsPath (joinPath ws (t.build_dir ++ "/zephyr/zmk.uf2")) = false →
      fs.existsPath (joinPath ws (t.build_dir ++ "/zmk/zephyr/zmk.uf2")) = false →
      collect_artifact fs ws t out =
        Except.error ("Build artifact not found. Searched:\n  " ++
          (joinPath ws (t.build_dir ++ "/zephyr/zmk.uf2") ++ "\n  " ++
            joinPath ws (t.build_dir ++ "/zmk/zephyr/zmk.uf2"))) ∧
      (joinPath ws (t.build_dir ++ "/zephyr/zmk.uf2")).data <:+:
        ("Build artifact not found. Searched:\n  " ++
          (joinPath ws (t.build_dir ++ "/zephyr/zmk.uf2") ++ "\n  " ++
            joinPath ws (t.build_dir ++ "/zmk/zephyr/zmk.uf2"))).data ∧
      (joinPath ws (t.build_dir ++ "/zmk/zephyr/zmk.uf2")).data <:+:
        ("Build artifact not found. Searched:\n  " ++
          (joinPath ws (t.build_dir ++ "/zephyr/zmk.uf2") ++ "\n  " ++
            joinPath ws (t.build_dir ++ "/zmk/zephyr/zmk.uf2"))).data) := by
  refine ⟨?_, ?_, ?_⟩
  · intro hread
    have hex : fs.existsPath (joinPath ws (t.build_dir ++ "/zephyr/zmk.uf2")) = true := by
      simp [FileSys.existsPath, hread]
    refine collect_artifact_found fs ws out t _ contents ?_ hread
    simp only [BuildTarget.firmware_path_candidates, List.map_cons, List.map_nil]
    exact List.find?_cons_of_pos _ hex
  · intro hex1 hread
    have hex2 : fs.existsPath (joinPath ws (t.build_dir ++ "/zmk/zephyr/zmk.uf2")) = true := by
      simp [FileSys.existsPath, hread]
    refine collect_artifact_found fs ws out t _ contents ?_ hread
    simp only [BuildTarget.firmware_path_candidates, List.map_cons, List.map_nil]
    rw [List.find?_cons_of_neg _ (by simp [hex1]), List.find?_cons_of_pos _ hex2]
  · intro hex1 hex2
    have hfind : (t.firmware_path_candidates.map (fun c => joinPath ws c)).find?
        fs.existsPath = none := by
      simp only [BuildTarget.firmware_path_candidates, List.map_cons, List.map_nil]
      rw [List.find?_cons_of_neg _ (by simp [hex1]),
        List.find?_cons_of_neg _ (by simp [hex2])]
      rfl
    refine ⟨?_, ?_, ?_⟩
    · simp only [collect_artifact, hfind]
      rfl
    · refine ⟨("Build artifact not found. Searched:\n  ").data,
        ("\n  " ++ joinPath ws (t.build_dir ++ "/zmk/zephyr/zmk.uf2")).data, ?_⟩
      simp [String.data_append, List.append_assoc]
    · refine ⟨("Build artifact not found. Searched:\n  " ++
        (joinPath ws (t.build_dir ++ "/zephyr/zmk.uf2") ++ "\n  ")).data, [], ?_⟩
      simp [String.data_append, List.append_assoc]

/-- Witness for `collect_artifact_spec`: with only the sysbuild candidate
present, resolution picks it and copies it to `out/b-zmk.uf2`. -/
theorem collect_artifact_spec_witness :
    ∃ fs₂,
      collect_artifact fs0Witness "ws" t0Witness "out" =
        Except.ok (joinPath "out" (t0Witness.artifact_name ++ ".uf2"), fs₂) ∧
      fs₂.readFile (joinPath "out" (t0Witness.artifact_name ++ ".uf2")) = some "fw" ∧
      ∀ parent, parentDir (joinPath "out" (t0Witness.artifact_name ++ ".uf2")) = some parent →
        parent ∈ fs₂.dirs :=
  (collect_artifact_spec fs0Witness "ws" "out" t0Witness "fw").2.1
    (by decide) (by decide)

/-! ## Theorems about build-task results and scheduling -/

/-- Claim C8 counterexample: in parallel verbose mode a non-zero exit with
nonempty captured streams still yields `error_output = none`; the claimed
stdout-and-stderr concatenation is not attached in verbose modes. -/
theorem verbose_parallel_error_output_none :
    (build_target_verbose_parallel (BuildTarget.from_args "b" none) envFail).success
        = false ∧
      (build_target_verbose_parallel (BuildTarget.from_args "b" none) envFail).error_output
        = none ∧
      combinedOutput envFail.stdout_output envFail.stderr_output = "out line\nerr line" ∧
      combinedOutput envFail.stdout_output envFail.stderr_output ≠ "" := by
  exact ⟨rfl, rfl, by decide, by decide⟩

/-- Claim C8 (amended): in the capture modes (sequential non-verbose and
parallel non-verbose) a non-zero exit yields success false, an exit-code
error message, and `error_output` equal to the captured stdout-and-stderr
concatenation when nonempty (none when empty); in the two verbose modes the
output was streamed live, so `error_output` is none. -/
theorem nonzero_exit_result (t : BuildTarget) (env : TaskEnv) (quiet : Bool)
    (d : String) (status : ExitStatus)
    (hcc : env.ccache_dir = .ok d) (hsp : env.spawn = .ok ())
    (hw : env.wait = .ok status) (hns : status.success = false) :
    (build_target_inner t env quiet).success = false ∧
      (build_target_inner t env quiet).error =
        some ("Build failed with exit code: " ++ formatOptionCode status.code) ∧
      (build_target_inner t env quiet).error_output =
        (if combinedOutput env.stdout_output env.stderr_output = "" then none
          else some (combinedOutput env.stdout_output env.stderr_output)) ∧
      build_target_with_progress t env = build_target_inner t env quiet ∧
      (build_target_verbose_parallel t env).error_output = none ∧
      (build_target_verbose_inner t env).error_output = none := by
  obtain ⟨cc, sp, w, so, se, art, el⟩ := env
  dsimp only at hcc hsp hw ⊢
  subst hcc
  subst hsp
  subst hw
  refine ⟨?_, ?_, ?_, ?_, ?_, ?_⟩ <;>
    simp [build_target_inner, build_target_with_progress,
      build_target_verbose_parallel, build_target_verbose_inner, hns]

/-- Witness for `nonzero_exit_result` at the concrete failing environment. -/
theorem nonzero_exit_result_witness :
    (build_target_inner (BuildTarget.from_args "b" none) envFail false).success = false ∧
      (build_target_inner (BuildTarget.from_args "b" none) envFail false).error =
        some ("Build failed with exit code: " ++
          formatOptionCode (ExitStatus.mk (some 1)).code) ∧
      (build_target_inner (BuildTarget.from_args "b" none) envFail false).error_output =
        (if combinedOutput envFail.stdout_output envFail.stderr_output = "" then none
          else some (combinedOutput envFail.stdout_output envFail.stderr_output)) ∧
      build_target_with_progress (BuildTarget.from_args "b" none) envFail =
        build_target_inner (BuildTarget.from_args "b" none) envFail false ∧
      (build_target_verbose_parallel (BuildTarget.from_args "b" none) envFail).error_output
        = none ∧
      (build_target_verbose_inner (BuildTarget.from_args "b" none) envFail).error_output
        = none :=
  nonzero_exit_result (BuildTarget.from_args "b" none) envFail false
    "/root/.ccache" (ExitStatus.mk (some 1)) rfl rfl rfl rfl

/-- Claim C10: every `BuildResult` produced by any of the four build-task
functions satisfies the field invariant: success implies no error, no error
output, an artifact path and a duration; failure implies an error message
and no artifact path. -/
theorem build_result_field_invariant (t : BuildTarget) (env : TaskEnv)
    (quiet : Bool) :
    resultInvariant (build_target_inner t env quiet) = true ∧
      resultInvariant (build_target_with_progress t env) = true ∧
      resultInvariant (build_target_verbose_parallel t env) = true ∧
      resultInvariant (build_target_verbose_inner t env) = true := by
  obtain ⟨cc, sp, w, so, se, art, el⟩ := env
  refine ⟨?_, ?_, ?_, ?_⟩ <;>
    · rcases cc with e | dd
      · rfl
      rcases sp with e | u
      · rfl
      rcases w with e | status
      · rfl
      rcases art with e | a <;> cases hs : status.success <;>
        simp [build_target_inner, build_target_with_progress,
          build_target_verbose_parallel, build_target_verbose_inner,
          resultInvariant, hs]

/-- The parallel-path task functions produce the same target name and the
same success flag as their sequential counterparts, for any fixed
interaction outcomes. -/
theorem task_outcome_agree (t : BuildTarget) (env : TaskEnv) (quiet : Bool) :
    (build_target_with_progress t env).target_name =
        (build_target_inner t env quiet).target_name ∧
      (build_target_with_progress t env).success =
        (build_target_inner t env quiet).success ∧
      (build_target_verbose_parallel t env).target_name =
        (build_target_verbose_inner t env).target_name ∧
      (build_target_verbose_parallel t env).success =
        (build_target_verbose_inner t env).success := by
  obtain ⟨cc, sp, w, so, se, art, el⟩ := env
  refine ⟨?_, ?_, ?_, ?_⟩ <;>
    · rcases cc with e | dd
      · rfl
      rcases sp with e | u
      · rfl
      rcases w with e | status
      · rfl
      rcases art with e | a <;> cases hs : status.success <;>
        simp [build_target_inner, build_target_with_progress,
          build_target_verbose_parallel, build_target_verbose_inner, hs]

/-- Claim C9: for the same target set and the same per-target toolchain
behaviour, the parallel and sequential schedulers produce the same multiset
of (target name, success) outcomes, in both verbose and non-verbose mode;
they differ only in result order. -/
theorem parallel_sequential_same_outcomes (verbose quiet : Bool)
    (envOf : BuildTarget → TaskEnv) (targets completed : List BuildTarget)
    (hperm : completed.Perm targets) :
    ((build_parallel verbose envOf completed).map
        (fun r => (r.target_name, r.success))).Perm
      ((build_sequential verbose quiet envOf targets).map
        (fun r => (r.target_name, r.success))) := by
  unfold build_parallel build_sequential
  rw [List.map_map, List.map_map]
  have hfun : ∀ t' ∈ targets,
      ((fun r : BuildResult => (r.target_name, r.success)) ∘
        (fun t => if verbose then build_target_verbose_parallel t (envOf t)
          else build_target_with_progress t (envOf t))) t' =
      ((fun r : BuildResult => (r.target_name, r.success)) ∘
        (fun t => if verbose then build_target_verbose_inner t (envOf t)
          else build_target_inner t (envOf t) quiet)) t' := by
    intro t' _
    obtain ⟨h1, h2, h3, h4⟩ := task_outcome_agree t' (envOf t') quiet
    cases verbose <;> simp [Function.comp, h1, h2, h3, h4]
  have h2 : targets.map
      ((fun r : BuildResult => (r.target_name, r.success)) ∘
        (fun t => if verbose then build_target_verbose_parallel t (envOf t)
          else build_target_with_progress t (envOf t))) =
      targets.map
      ((fun r : BuildResult => (r.target_name, r.success)) ∘
        (fun t => if verbose then build_target_verbose_inner t (envOf t)
          else build_target_inner t (envOf t) quiet)) :=
    List.map_congr_left hfun
  exact h2 ▸ hperm.map _

/-- Witness for `parallel_sequential_same_outcomes`: two targets, completion
order reversed, target `a-zmk` failing. -/
theorem parallel_sequential_same_outcomes_witness :
    ((build_parallel false envOfW
        [BuildTarget.from_args "c" none, BuildTarget.from_args "a" none]).map
        (fun r => (r.target_name, r.success))).Perm
      ((build_sequential false false envOfW
        [BuildTarget.from_args "a" none, BuildTarget.from_args "c" none]).map
        (fun r => (r.target_name, r.success))) :=
  parallel_sequential_same_outcomes false false envOfW
    [BuildTarget.from_args "a" none, BuildTarget.from_args "c" none]
    [BuildTarget.from_args "c" none, BuildTarget.from_args "a" none]
    (by decide)

end Lfz
